import Mathlib

/-!
Shallow embedding of the per-symbol trading decision engine of `src/5.py`:
the signal sentinels, the dynamic RSI threshold, the exit and entry policies,
the purchase-price file store, and the per-cycle decision logic of
`process_symbol`.  Exact numeric values are modelled as rationals (Bollinger
band payloads as reals, since a sample standard deviation is a square root);
the float NaN / Python `None` "undefined" sentinels are modelled as
`Option.none`, and a raised exception as `Except.error`.
-/

/-- Python truthiness of an optional float, as used by `if purchase_price:`
and `purchase_price and ...` in `process_symbol` (src/5.py lines 136, 141,
144, 148): `None` and `0.0` are falsy, every other float is truthy. -/
def pyTruthy : Option ℚ → Bool
  | none => false
  | some p => decide (p ≠ 0)

/-- Profit computation of `process_symbol` (src/5.py line 141):
`((current_price - purchase_price) / purchase_price) * 100 if purchase_price
else 0`.  The conditional tests Python truthiness, so both a missing purchase
price and a stored `0.0` take the `0` branch, and the division is never
evaluated in that branch. -/
def profit_percentage (purchase : Option ℚ) (current_price : ℚ) : ℚ :=
  match purchase with
  | some p => if p = 0 then 0 else (current_price - p) / p * 100
  | none => 0

/-- `should_sell_with_trailing_stop` (src/5.py lines 112-116). -/
def should_sell_with_trailing_stop (purchase_price current_price profit_target trailing_stop : ℚ) : Bool :=
  let target_price := purchase_price * (1 + profit_target / 100)
  let trailing_price := current_price * (1 - trailing_stop / 100)
  decide (current_price ≥ target_price ∧ trailing_price > purchase_price)

/-- `dynamic_rsi_threshold` (src/5.py lines 103-110). -/
def dynamic_rsi_threshold (current_price upper_band lower_band : ℚ) : ℚ :=
  if current_price > upper_band then 30
  else if current_price < lower_band then 24
  else 27

/-- Entry condition of `process_symbol` (src/5.py line 166):
`rsi < rsi_threshold and balance_in_usd < 1`.  An undefined RSI (float NaN,
modelled as `none`) makes the comparison false, so no buy is issued. -/
def should_buy (rsi : Option ℚ) (rsi_threshold balance_in_usd : ℚ) : Bool :=
  (match rsi with
   | none => false
   | some r => decide (r < rsi_threshold)) && decide (balance_in_usd < 1)

/-- Which exit rule fired, in the evaluation order of src/5.py lines 144-151:
the take-profit branch is the `if`, the trailing-stop branch the `elif`. -/
inductive SellReason
  | takeProfit
  | trailingStop
deriving DecidableEq

/-- The trailing-stop call of src/5.py line 148, lifted to the optional
purchase price (in the source the branch is only reachable when the stored
price is truthy, so the `none` arm is never taken there). -/
def trailingCheck (purchase : Option ℚ) (current_price profit_target trailing_stop : ℚ) : Bool :=
  match purchase with
  | some p => should_sell_with_trailing_stop p current_price profit_target trailing_stop
  | none => false

/-- Exit decision of `process_symbol` (src/5.py lines 139-153), given the
pre-computed `balance_in_usd`: inside the `balance_in_usd > 1` branch the
take-profit check (`purchase_price and profit_percentage >= PROFIT_TARGET`)
runs first and the trailing-stop check second; each is guarded by the
truthiness of the stored purchase price.  `none` is the `else` branch that
sells nothing. -/
def sellReason (balance_in_usd : ℚ) (purchase : Option ℚ) (current_price profit_target trailing_stop : ℚ) : Option SellReason :=
  if balance_in_usd > 1 then
    if pyTruthy purchase && decide (profit_percentage purchase current_price ≥ profit_target) then
      some SellReason.takeProfit
    else if pyTruthy purchase && trailingCheck purchase current_price profit_target trailing_stop then
      some SellReason.trailingStop
    else none
  else none

/-- A market order submitted by `process_symbol`. -/
inductive TradeAction
  | sell
  | buy
deriving DecidableEq

/-- The market orders `process_symbol` submits in one cycle for one symbol
(src/5.py lines 139-168): first the sell branch (lines 140-153) with
`balance_in_usd = balance * current_price` (line 128), then the buy branch
(lines 166-168) against the same `balance_in_usd`. -/
def cycleActions (balance : ℚ) (purchase : Option ℚ) (current_price : ℚ) (rsi : Option ℚ) (rsi_threshold profit_target trailing_stop : ℚ) : List TradeAction :=
  let balance_in_usd := balance * current_price
  (match sellReason balance_in_usd purchase current_price profit_target trailing_stop with
   | some _ => [TradeAction.sell]
   | none => []) ++
  (if should_buy rsi rsi_threshold balance_in_usd then [TradeAction.buy] else [])

/-- The file system, restricted to the `{symbol}_purchase_price.txt` files:
for each symbol, the rational value of the stored decimal string, or `none`
when the file does not exist. -/
def PStore := String → Option ℚ

/-- No purchase-price file exists. -/
def emptyStore : PStore := fun _ => none

/-- Round half to even at integer precision, the rounding applied by Python
float formatting. -/
def roundHalfEven (x : ℚ) : ℤ :=
  if x - ⌊x⌋ < 1 / 2 then ⌊x⌋
  else if x - ⌊x⌋ > 1 / 2 then ⌊x⌋ + 1
  else if ⌊x⌋ % 2 = 0 then ⌊x⌋ else ⌊x⌋ + 1

/-- Rounding to eight decimal places: the information kept by the
`f"{price:.8f}"` formatting of src/5.py line 88. -/
def round8 (p : ℚ) : ℚ := (roundHalfEven (p * 100000000) : ℚ) / 100000000

/-- `write_purchase_price` (src/5.py lines 85-88): writes the price formatted
with eight decimal places to the `{symbol}_purchase_price.txt` file,
overwriting any previous content. -/
def write_purchase_price (st : PStore) (symbol : String) (price : ℚ) : PStore :=
  fun s => if s = symbol then some (round8 price) else st s

/-- `read_purchase_price` (src/5.py lines 90-96): returns the parsed file
content, or `None` (here `none`) when the file is missing. -/
def read_purchase_price (st : PStore) (symbol : String) : Option ℚ :=
  st symbol

/-- `clear_purchase_price` (src/5.py lines 98-101): removes the symbol's
purchase-price file if it exists. -/
def clear_purchase_price (st : PStore) (symbol : String) : PStore :=
  fun s => if s = symbol then none else st s

/-- Consecutive price changes: `close.diff()` with its leading NaN dropped. -/
def diffs (xs : List ℚ) : List ℚ := List.zipWith (fun b a => b - a) xs.tail xs

/-- Positive price changes (`positive` series of the RSI computation). -/
def gains (xs : List ℚ) : List ℚ := (diffs xs).map (fun d => max d 0)

/-- Negative price changes, as magnitudes (`negative` series of the RSI). -/
def losses (xs : List ℚ) : List ℚ := (diffs xs).map (fun d => max (-d) 0)

/-- Arithmetic mean of a list (pandas `mean` of a full window). -/
def sampleMean (l : List ℚ) : ℚ := l.sum / l.length

/-- Wilder smoothing: seed with the simple average of the first `period`
values, then fold `avg ↦ (avg * (period - 1) + x) / period` over the rest. -/
def wilderAvg (period : ℕ) (l : List ℚ) : ℚ :=
  (l.drop period).foldl (fun acc x => (acc * ((period : ℚ) - 1) + x) / period) (sampleMean (l.take period))

/-- Modelled from the spec: the numeric value of `ta.rsi` (the external
pandas_ta library called at src/5.py line 41) — the "standard
Wilder/EMA-smoothed relative-strength index over the last `period` price
changes", reported at the most recent observation; 100 when the smoothed
loss is zero. -/
def wilderRSI (xs : List ℚ) (period : ℕ) : ℚ :=
  let g := wilderAvg period (gains xs)
  let l := wilderAvg period (losses xs)
  if l = 0 then 100 else 100 - 100 / (1 + g / l)

/-- `calculate_rsi` (src/5.py lines 38-42).  The pandas pipeline is embedded
as follows: `ta.rsi` returns the `None` sentinel whenever the close series
has at most `period` observations (its input-length gate), which the final
`.iloc[-1]` surfaces as the undefined sentinel (`Except.ok none`); on an
empty price list the data frame is empty and `.iloc[-1]` raises
`IndexError`, modelled as `Except.error ()`. -/
def calculate_rsi (prices : List ℚ) (period : ℕ) : Except Unit (Option ℚ) :=
  if prices.isEmpty then Except.error ()
  else if prices.length ≤ period then Except.ok none
  else Except.ok (some (wilderRSI prices period))

/-- Sample variance (pandas `std` default `ddof=1`) of a full window. -/
def sampleVar (l : List ℚ) : ℚ :=
  (l.map (fun x => (x - sampleMean l) ^ 2)).sum / ((l.length : ℚ) - 1)

/-- Sample standard deviation: the payload of `rolling(...).std()`. -/
noncomputable def sampleStd (l : List ℚ) : ℝ := Real.sqrt ((sampleVar l : ℚ) : ℝ)

/-- The trailing window of length `w` ending at index `i`. -/
def windowSlice (w : ℕ) (xs : List ℚ) (i : ℕ) : List ℚ := (xs.take (i + 1)).drop (i + 1 - w)

/-- Entry `i` of `prices.rolling(window=w).mean()`: NaN (`none`) until a full
window of `w` observations is available. -/
noncomputable def rollingMeanAt (w : ℕ) (xs : List ℚ) (i : ℕ) : Option ℝ :=
  if w ≤ i + 1 then some ((sampleMean (windowSlice w xs i) : ℚ) : ℝ) else none

/-- Entry `i` of `prices.rolling(window=w).std()`. -/
noncomputable def rollingStdAt (w : ℕ) (xs : List ℚ) (i : ℕ) : Option ℝ :=
  if w ≤ i + 1 then some (sampleStd (windowSlice w xs i)) else none

/-- NaN-propagating `rolling_mean + rolling_std * 2` (src/5.py line 48). -/
def upperAt (m s : Option ℝ) : Option ℝ :=
  match m, s with
  | some a, some b => some (a + b * 2)
  | _, _ => none

/-- NaN-propagating `rolling_mean - rolling_std * 2` (src/5.py line 49). -/
def lowerAt (m s : Option ℝ) : Option ℝ :=
  match m, s with
  | some a, some b => some (a - b * 2)
  | _, _ => none

/-- `calculate_bollinger_bands` (src/5.py lines 44-50) at its only call site
(window 20, multiplier 2, the defaults, line 159): the upper and lower band
series are evaluated at the most recent observation by `.iloc[-1]`, which
raises `IndexError` (modelled as `Except.error ()`) on an empty series.
`none` is the float NaN that `rolling` emits before a full window is
available. -/
noncomputable def calculate_bollinger_bands (xs : List ℚ) : Except Unit (Option ℝ × Option ℝ) :=
  let upper := (List.range xs.length).map (fun i => upperAt (rollingMeanAt 20 xs i) (rollingStdAt 20 xs i))
  let lower := (List.range xs.length).map (fun i => lowerAt (rollingMeanAt 20 xs i) (rollingStdAt 20 xs i))
  match upper.getLast?, lower.getLast? with
  | some u, some l => Except.ok (u, l)
  | _, _ => Except.error ()

/-! Helper lemmas shared by several results. -/

/-- Unfolding lemma for the trailing-stop predicate. -/
theorem should_sell_iff (p cur pt ts : ℚ) :
    should_sell_with_trailing_stop p cur pt ts = true ↔
      (cur ≥ p * (1 + pt / 100) ∧ cur * (1 - ts / 100) > p) := by
  simp [should_sell_with_trailing_stop]

/-- A fired exit decision implies the balance value strictly exceeds 1 USDT. -/
theorem sellReason_some_bal {b cur pt ts : ℚ} {pu : Option ℚ} {r : SellReason}
    (h : sellReason b pu cur pt ts = some r) : b > 1 := by
  by_cases hb : b > 1
  · exact hb
  · rw [sellReason, if_neg hb] at h
    exact absurd h (by simp)

/-- A fired entry decision implies the balance value is strictly below 1 USDT. -/
theorem should_buy_lt_one {rsi : Option ℚ} {thr bal : ℚ}
    (h : should_buy rsi thr bal = true) : bal < 1 := by
  simp only [should_buy, Bool.and_eq_true, decide_eq_true_eq] at h
  exact h.2

/-- Last entry of a list built by mapping over `List.range`. -/
theorem map_range_getLast {α : Type} (f : ℕ → α) (n : ℕ) (hn : n ≠ 0) :
    ((List.range n).map f).getLast? = some (f (n - 1)) := by
  rw [List.getLast?_eq_getElem?]
  simp only [List.length_map, List.length_range]
  rw [List.getElem?_map, List.getElem?_range (by omega)]
  rfl

/-- C2 counterexample: at `current_price = upper_band = 1` with
`lower_band = 5`, the boundary case `current_price == upper_band` does not
map to 27 (the strict comparisons send it to the 24 branch), refuting the
universally quantified boundary statement of the claim. -/
theorem dynamic_threshold_boundary_fails : dynamic_rsi_threshold 1 1 5 ≠ 27 := by
  norm_num [dynamic_rsi_threshold]

/-- C2 (amended): `dynamic_rsi_threshold` always returns one of {24, 27, 30} —
30 on a strict upper-band breakout, 24 on a strict lower-band breakdown, 27
otherwise — and, provided the bands are ordered (`lower_band ≤ upper_band`,
as Bollinger bands always are), the boundary cases `current_price =
upper_band` and `current_price = lower_band` both map to 27. -/
theorem dynamic_threshold_cases (cur ub lb : ℚ) :
    (dynamic_rsi_threshold cur ub lb = 24 ∨ dynamic_rsi_threshold cur ub lb = 27 ∨
      dynamic_rsi_threshold cur ub lb = 30) ∧
    (cur > ub → dynamic_rsi_threshold cur ub lb = 30) ∧
    (cur ≤ ub → cur < lb → dynamic_rsi_threshold cur ub lb = 24) ∧
    (cur ≤ ub → lb ≤ cur → dynamic_rsi_threshold cur ub lb = 27) ∧
    (lb ≤ ub → dynamic_rsi_threshold ub ub lb = 27) ∧
    (lb ≤ ub → dynamic_rsi_threshold lb ub lb = 27) := by
  refine ⟨?_, fun h => ?_, fun h1 h2 => ?_, fun h1 h2 => ?_, fun hlb => ?_, fun hlb => ?_⟩
  · unfold dynamic_rsi_threshold; split_ifs <;> simp
  · rw [dynamic_rsi_threshold, if_pos h]
  · rw [dynamic_rsi_threshold, if_neg (not_lt.mpr h1), if_pos h2]
  · rw [dynamic_rsi_threshold, if_neg (not_lt.mpr h1), if_neg (not_lt.mpr h2)]
  · rw [dynamic_rsi_threshold, if_neg (lt_irrefl ub), if_neg (not_lt.mpr hlb)]
  · rw [dynamic_rsi_threshold, if_neg (not_lt.mpr hlb), if_neg (lt_irrefl lb)]

/-- C2 witness: a strict breakout above the upper band yields threshold 30. -/
theorem dynamic_threshold_cases_inst :
    (3:ℚ) > 1 ∧ dynamic_rsi_threshold 3 1 0 = 30 :=
  ⟨by norm_num, (dynamic_threshold_cases 3 1 0).2.1 (by norm_num)⟩

/-- C3: `should_sell_with_trailing_stop` returns true exactly when the
current price has reached the target price `purchase_price * (1 +
profit_target / 100)` and the trailing-adjusted price `current_price * (1 -
trailing_stop / 100)` strictly exceeds the purchase price; in particular it
is false whenever the current price is below the target price, for every
trailing-stop percentage. -/
theorem trailing_stop_formula (p cur pt ts : ℚ) :
    (should_sell_with_trailing_stop p cur pt ts = true ↔
      (cur ≥ p * (1 + pt / 100) ∧ cur * (1 - ts / 100) > p)) ∧
    (cur < p * (1 + pt / 100) → should_sell_with_trailing_stop p cur pt ts = false) := by
  refine ⟨should_sell_iff p cur pt ts, fun h => ?_⟩
  rw [Bool.eq_false_iff]
  intro htrue
  exact absurd ((should_sell_iff p cur pt ts).mp htrue).1 (not_le.mpr h)

/-- C3 witness: price 50 is below the target price of a 100 purchase with a
2% target, so the trailing stop does not fire. -/
theorem trailing_stop_formula_inst :
    (50:ℚ) < 100 * (1 + 2 / 100) ∧ should_sell_with_trailing_stop 100 50 2 1 = false :=
  ⟨by norm_num, (trailing_stop_formula 100 50 2 1).2 (by norm_num)⟩

/-- C4: for a positive purchase price and nonnegative target and
trailing-stop percentages, a true trailing-stop check implies the current
price strictly exceeds the cost basis, so the check never triggers a
loss-cutting sale. -/
theorem trailing_stop_never_cuts_losses (p cur pt ts : ℚ) (hp : 0 < p) (hpt : 0 ≤ pt)
    (hts : 0 ≤ ts) (h : should_sell_with_trailing_stop p cur pt ts = true) : cur > p := by
  obtain ⟨h1, h2⟩ := (should_sell_iff p cur pt ts).mp h
  have hcur : p ≤ cur := le_trans (by nlinarith) h1
  nlinarith [mul_nonneg (le_trans hp.le hcur) hts]

/-- C4 witness: purchase 100, price 103, target 2%, trailing stop 1%: the
check fires and indeed 103 > 100. -/
theorem trailing_stop_never_cuts_losses_inst :
    should_sell_with_trailing_stop 100 103 2 1 = true ∧ (103:ℚ) > 100 :=
  ⟨by norm_num [should_sell_with_trailing_stop],
   trailing_stop_never_cuts_losses 100 103 2 1 (by norm_num) (by norm_num) (by norm_num)
     (by norm_num [should_sell_with_trailing_stop])⟩

/-- C5: the entry decision is true exactly when the RSI is strictly below the
threshold and the balance value is strictly below the 1-USDT dust threshold;
an undefined RSI (`none`, the NaN sentinel) yields false for every threshold
and balance. -/
theorem entry_decision_spec (r thr bal : ℚ) :
    (should_buy (some r) thr bal = true ↔ (r < thr ∧ bal < 1)) ∧
    should_buy none thr bal = false := by
  constructor <;> simp [should_buy]

/-- C5 witness: rsi 25 below threshold 27 with balance value 0.5 buys. -/
theorem entry_decision_spec_inst : should_buy (some 25) 27 (1/2) = true :=
  (entry_decision_spec 25 27 (1/2)).1.mpr (by norm_num)

/-- C1 counterexample: (i) at a balance value of exactly 1 USDT — inside the
claim's Held state, `balance_value ≥ dust_threshold` — the engine produces no
sell even though the take-profit condition holds (the source tests
`balance_in_usd > 1` strictly); (ii) with a present purchase price of `0.0`
the trailing-stop condition holds, yet no sell is produced (Python truthiness
treats `0.0` like an absent price). -/
theorem held_sell_decision_fails :
    (sellReason 1 (some 100) 200 2 1 = none ∧ profit_percentage (some 100) 200 ≥ 2) ∧
    (sellReason 2 (some 0) 100 2 1 = none ∧ should_sell_with_trailing_stop 0 100 2 1 = true) :=
  ⟨⟨by norm_num [sellReason], by norm_num [profit_percentage]⟩,
   ⟨by norm_num [sellReason, pyTruthy], by norm_num [should_sell_with_trailing_stop]⟩⟩

/-- C1 (amended): for every snapshot with balance value strictly above the
1-USDT dust threshold and a present nonzero purchase price, the engine
produces a Sell whenever the take-profit condition (`profit_percentage ≥
profit_target`) or the trailing-stop condition holds; the take-profit check
is evaluated first and the trailing-stop check second, the first true check
winning, and the sell order is part of the cycle's actions. -/
theorem held_sell_decision (balance cur p pt ts thr : ℚ) (rsi : Option ℚ)
    (hb : balance * cur > 1) (hp : p ≠ 0) :
    ((profit_percentage (some p) cur ≥ pt ∨ should_sell_with_trailing_stop p cur pt ts = true) →
      (sellReason (balance * cur) (some p) cur pt ts).isSome = true) ∧
    (profit_percentage (some p) cur ≥ pt →
      sellReason (balance * cur) (some p) cur pt ts = some SellReason.takeProfit) ∧
    (¬ profit_percentage (some p) cur ≥ pt → should_sell_with_trailing_stop p cur pt ts = true →
      sellReason (balance * cur) (some p) cur pt ts = some SellReason.trailingStop) ∧
    ((profit_percentage (some p) cur ≥ pt ∨ should_sell_with_trailing_stop p cur pt ts = true) →
      TradeAction.sell ∈ cycleActions balance (some p) cur rsi thr pt ts) := by
  have htru : pyTruthy (some p) = true := by simp [pyTruthy, hp]
  by_cases hprof : profit_percentage (some p) cur ≥ pt
  · have hsr : sellReason (balance * cur) (some p) cur pt ts = some SellReason.takeProfit := by
      rw [sellReason, if_pos hb, if_pos]
      simp [htru, hprof]
    exact ⟨fun _ => by rw [hsr]; rfl,
           fun _ => hsr,
           fun hnp _ => absurd hprof hnp,
           fun _ => by simp [cycleActions, hsr]⟩
  · have hc1 : ¬ (pyTruthy (some p) && decide (profit_percentage (some p) cur ≥ pt)) = true := by
      simp [hprof]
    have hsr : ∀ _ : should_sell_with_trailing_stop p cur pt ts = true,
        sellReason (balance * cur) (some p) cur pt ts = some SellReason.trailingStop := fun htr => by
      rw [sellReason, if_pos hb, if_neg hc1, if_pos]
      simp [htru, trailingCheck, htr]
    refine ⟨fun hor => ?_, fun h2 => absurd h2 hprof, fun _ htr => hsr htr, fun hor => ?_⟩
    · rcases hor with h | htr
      · exact absurd h hprof
      · rw [hsr htr]; rfl
    · rcases hor with h | htr
      · exact absurd h hprof
      · simp [cycleActions, hsr htr]

/-- C1 witness: balance value 206 USDT, purchase 100, price 103, target 2%:
the take-profit branch fires. -/
theorem held_sell_decision_inst :
    sellReason (2 * 103) (some 100) 103 2 1 = some SellReason.takeProfit :=
  (held_sell_decision 2 103 100 2 1 27 none (by norm_num) (by norm_num)).2.1
    (by norm_num [profit_percentage])

/-- C6: each cycle submits at most one order per symbol — the list of
submitted actions is empty, a single sell, or a single buy; a Buy and a Sell
can never both be issued, because the sell branch requires the pre-decision
balance value to exceed 1 USDT while the buy branch requires that same value
to be below 1 USDT. -/
theorem one_action_per_cycle (balance : ℚ) (purchase : Option ℚ) (cur : ℚ)
    (rsi : Option ℚ) (thr pt ts : ℚ) :
    cycleActions balance purchase cur rsi thr pt ts = [] ∨
    cycleActions balance purchase cur rsi thr pt ts = [TradeAction.sell] ∨
    cycleActions balance purchase cur rsi thr pt ts = [TradeAction.buy] := by
  by_cases hs : ∃ r, sellReason (balance * cur) purchase cur pt ts = some r
  · obtain ⟨r, hr⟩ := hs
    have hb1 : balance * cur > 1 := sellReason_some_bal hr
    have hb2 : should_buy rsi thr (balance * cur) = false := by
      cases hbb : should_buy rsi thr (balance * cur)
      · rfl
      · exact absurd (should_buy_lt_one hbb) (by linarith)
    right; left
    simp [cycleActions, hr, hb2]
  · have hnone : sellReason (balance * cur) purchase cur pt ts = none := by
      cases h : sellReason (balance * cur) purchase cur pt ts
      · rfl
      · exact absurd ⟨_, h⟩ hs
    cases hbb : should_buy rsi thr (balance * cur)
    · left; simp [cycleActions, hnone, hbb]
    · right; right; simp [cycleActions, hnone, hbb]

/-- C7: the profit percentage of an absent purchase price is 0 for every
current price; with a present nonzero purchase price it is the relative gain
in percent; and a held balance with an absent purchase price yields no exit
decision and no sell order that cycle (the untracked-holding passthrough). -/
theorem profit_default_and_untracked (p cur bal balance pt ts thr : ℚ) (rsi : Option ℚ) :
    profit_percentage none cur = 0 ∧
    (p ≠ 0 → profit_percentage (some p) cur = (cur - p) / p * 100) ∧
    sellReason bal none cur pt ts = none ∧
    TradeAction.sell ∉ cycleActions balance none cur rsi thr pt ts := by
  have hsn : ∀ b : ℚ, sellReason b none cur pt ts = none := fun b => by
    simp [sellReason, pyTruthy]
  refine ⟨rfl, fun hp => by simp [profit_percentage, hp], hsn bal, ?_⟩
  simp only [cycleActions, hsn]
  split_ifs <;> simp

/-- C7 witness: purchase 100, price 103 gives a 3% profit by the formula. -/
theorem profit_default_and_untracked_inst :
    profit_percentage (some 100) 103 = (103 - 100) / 100 * 100 :=
  (profit_default_and_untracked 100 103 0 0 2 1 27 none).2.1 (by norm_num)

/-- C10: a stored purchase price equal to 0.0 is treated exactly like an
absent one: the profit computation short-circuits to 0 (no division by the
zero price is evaluated), no exit rule fires, the whole cycle decision is
unchanged, and no sell order is submitted, for every price and balance. -/
theorem zero_purchase_like_absent (bal balance cur pt ts thr : ℚ) (rsi : Option ℚ) :
    profit_percentage (some 0) cur = 0 ∧
    sellReason bal (some 0) cur pt ts = sellReason bal none cur pt ts ∧
    sellReason bal (some 0) cur pt ts = none ∧
    cycleActions balance (some 0) cur rsi thr pt ts = cycleActions balance none cur rsi thr pt ts ∧
    TradeAction.sell ∉ cycleActions balance (some 0) cur rsi thr pt ts := by
  have h0 : ∀ b : ℚ, sellReason b (some 0) cur pt ts = none := fun b => by
    norm_num [sellReason, pyTruthy]
  have hn : ∀ b : ℚ, sellReason b none cur pt ts = none := fun b => by
    simp [sellReason, pyTruthy]
  refine ⟨by simp [profit_percentage], by rw [h0, hn], h0 bal, ?_, ?_⟩
  · simp only [cycleActions, h0, hn]
  · simp only [cycleActions, h0]
    split_ifs <;> simp

/-- C8 counterexample: recording the price 1/3 stores only eight decimal
places (`f"{price:.8f}"`), so the subsequent read returns 0.33333333 rather
than the recorded price exactly. -/
theorem purchase_roundtrip_fails :
    read_purchase_price (write_purchase_price emptyStore "ETHUSDT" (1/3)) "ETHUSDT" ≠ some (1/3) := by
  have h : ⌊(1:ℚ)/3 * 100000000⌋ = 33333333 := by norm_num [Int.floor_eq_iff]
  simp only [read_purchase_price, write_purchase_price, if_pos rfl]
  rw [round8, roundHalfEven, h]
  norm_num

/-- C8 (amended): `recordPurchase(S, P)` followed by `readPurchase(S)`
returns P rounded to eight decimal places — exactly P whenever that rounding
is the identity, as for every price quoted with at most eight decimals — and
`recordPurchase(S, P)` followed by `clearPurchase(S)` and `readPurchase(S)`
returns Absent. -/
theorem purchase_roundtrip (st : PStore) (S : String) (P : ℚ) :
    read_purchase_price (write_purchase_price st S P) S = some (round8 P) ∧
    read_purchase_price (clear_purchase_price (write_purchase_price st S P) S) S = none ∧
    (round8 P = P → read_purchase_price (write_purchase_price st S P) S = some P) := by
  refine ⟨?_, ?_, fun h => ?_⟩
  · simp [read_purchase_price, write_purchase_price]
  · simp [read_purchase_price, clear_purchase_price]
  · simp [read_purchase_price, write_purchase_price, h]

/-- C8 witness: the price 100 is fixed by eight-decimal rounding, so its
write/read round-trip is exact. -/
theorem purchase_roundtrip_inst :
    round8 100 = 100 ∧
    read_purchase_price (write_purchase_price emptyStore "ETHUSDT" 100) "ETHUSDT" = some 100 := by
  have h : ⌊(100:ℚ) * 100000000⌋ = 10000000000 := by norm_num [Int.floor_eq_iff]
  have h8 : round8 100 = 100 := by rw [round8, roundHalfEven, h]; norm_num
  exact ⟨h8, (purchase_roundtrip emptyStore "ETHUSDT" 100).2.2 h8⟩

/-- C9 counterexample: on the empty price sequence both signal operations
raise `IndexError` from `.iloc[-1]` (modelled as `Except.error ()`) instead
of returning the NaN sentinel. -/
theorem signals_empty_crash :
    calculate_bollinger_bands ([] : List ℚ) = Except.error () ∧
    calculate_rsi ([] : List ℚ) 14 = Except.error () ∧
    calculate_bollinger_bands ([] : List ℚ) ≠ Except.ok (none, none) :=
  ⟨rfl, rfl, by simp [calculate_bollinger_bands]⟩

/-- C9 (amended): for every nonempty price sequence shorter than the
Bollinger window (20), `calculate_bollinger_bands` returns the NaN sentinel
for both bands, and for every nonempty sequence of at most `period` prices
`calculate_rsi` returns the undefined sentinel — neither crashes nor returns
a spurious numeric value; on the empty sequence both raise an index error
(caught upstream by the per-symbol exception handler). -/
theorem signals_short_history (xs : List ℚ) (period : ℕ) :
    (xs ≠ [] → xs.length < 20 → calculate_bollinger_bands xs = Except.ok (none, none)) ∧
    (xs ≠ [] → xs.length ≤ period → calculate_rsi xs period = Except.ok none) ∧
    calculate_bollinger_bands ([] : List ℚ) = Except.error () ∧
    calculate_rsi ([] : List ℚ) period = Except.error () := by
  refine ⟨fun hne hlen => ?_, fun hne hlen => ?_, rfl, rfl⟩
  · have hn : xs.length ≠ 0 := by simpa using hne
    simp only [calculate_bollinger_bands]
    rw [map_range_getLast _ _ hn, map_range_getLast _ _ hn]
    have hm : rollingMeanAt 20 xs (xs.length - 1) = none := by
      rw [rollingMeanAt, if_neg]; omega
    have hs : rollingStdAt 20 xs (xs.length - 1) = none := by
      rw [rollingStdAt, if_neg]; omega
    rw [hm, hs]
    rfl
  · have hn : ¬ xs.isEmpty = true := by simpa using hne
    rw [calculate_rsi, if_neg hn, if_pos hlen]

/-- C9 witness: a single-price history yields the undefined sentinel from
both signal operations. -/
theorem signals_short_history_inst :
    calculate_bollinger_bands [3] = Except.ok (none, none) ∧
    calculate_rsi [3] 14 = Except.ok none :=
  ⟨(signals_short_history [3] 14).1 (by simp) (by simp),
   (signals_short_history [3] 14).2.1 (by simp) (by simp)⟩
